import Mathlib

/-!
# Verification of the discord-open-tools webhook relay

A shallow embedding of the repository's message formatters, webhook
handlers, Discord sender and Trello board-registration flow, together
with proofs of the testable properties stated in the specification.

JavaScript conventions are made explicit:
* a possibly-absent object property is an `Option`;
* reading a property of `undefined` raises a `TypeError`, modelled by
  the `Except JsError` monad;
* string truthiness (`""` and `undefined` are falsy) is `jsTruthy`;
* `String.prototype.includes`, first-occurrence `replace`,
  `substring(0, n)` and `split("\n")[0]` are given as helpers below.
-/

/-- The kinds of JavaScript exceptions the embedded code can raise. -/
inductive JsError where
  /-- Reading a property of `undefined`. -/
  | typeError : JsError
  /-- The `crypto.timingSafeEqual` on buffers of different byte lengths. -/
  | rangeError : JsError
  /-- Referencing a block-scoped binding outside its block. -/
  | referenceError : JsError
  /-- A rethrown application error carrying a message. -/
  | thrown : String → JsError
  deriving DecidableEq, Repr

/-- Property access on a possibly-absent object: `undefined.x` throws. -/
def jsGet {α : Type} : Option α → Except JsError α
  | some a => .ok a
  | none => .error .typeError

/-- JavaScript truthiness of a possibly-absent string (absent and `""` are falsy). -/
def jsTruthy : Option String → Bool
  | none => false
  | some s => s ≠ ""

/-- Template-literal rendering of a possibly-absent string (`undefined` prints). -/
def jsTemplate : Option String → String
  | none => "undefined"
  | some s => s

/-- The suffix of `l` after the first occurrence of `pat`, if any. -/
def afterFirst (l pat : List Char) : Option (List Char) :=
  match l with
  | [] => if pat = [] then some [] else none
  | _ :: rest => if pat.isPrefixOf l then some (l.drop pat.length) else afterFirst rest pat

/-- The `String.prototype.includes`. -/
def jsIncludes (s pat : String) : Bool :=
  (afterFirst s.data pat.data).isSome

/-- Split `l` around the first occurrence of `pat`, if any. -/
def splitFirst (l pat : List Char) : Option (List Char × List Char) :=
  match l with
  | [] => if pat = [] then some ([], []) else none
  | c :: rest =>
    if pat.isPrefixOf l then some ([], l.drop pat.length)
    else match splitFirst rest pat with
      | some (pre, post) => some (c :: pre, post)
      | none => none

/-- The `String.prototype.replace(pat, rep)` with a string pattern: first occurrence only. -/
def jsReplaceFirst (s pat rep : String) : String :=
  match splitFirst s.data pat.data with
  | some (pre, post) => ⟨pre ++ rep.data ++ post⟩
  | none => s

/-- The `message.split("\n")[0]`: the first line of a string. -/
def firstLine (s : String) : String :=
  (s.splitOn "\n").headD ""

/-- The truncation applied to long pull-request / issue / comment bodies:
`body.length > 1000 ? body.substring(0, 997) + "..." : body`
(the expression is inlined at each use site in the source). -/
def truncateBody (s : String) : String :=
  if s.length > 1000 then s.take 997 ++ "..." else s

/-- The `crypto.timingSafeEqual(Buffer.from(a), Buffer.from(b))`: throws a
`RangeError` when the byte lengths differ, otherwise compares contents. -/
def timingSafeEqual (a b : String) : Except JsError Bool :=
  if a.utf8ByteSize = b.utf8ByteSize then .ok (a = b) else .error .rangeError

/-- Stands for the external `new Date(d).toLocaleString()` formatting of a
date string; no claim depends on its output, only on its totality. -/
def dateToLocaleString (s : String) : String := s

/-! ## The notification card (Discord embed) -/

/-- The `footer` of a card. -/
structure EmbedFooter where
  text : String
  icon_url : String
  deriving DecidableEq, Repr

/-- The `author` of a card (source-control cards only). -/
structure EmbedAuthor where
  name : String
  url : String
  icon_url : String
  deriving DecidableEq, Repr

/-- One `{name, value, inline}` field of a card.  `value` is an `Option`
because the label branch can push a JavaScript `undefined` value;
`inline` is absent on commit fields. -/
structure EmbedField where
  name : String
  value : Option String := none
  inline : Option Bool := none
  deriving DecidableEq, Repr

/-- The notification card built by the formatters. -/
structure Embed where
  title : String
  description : String
  url : Option String
  color : Nat
  timestamp : String
  footer : EmbedFooter
  author : Option EmbedAuthor
  fields : List EmbedField
  deriving DecidableEq, Repr

/-! ## GitHub payloads (`formatGitHubMessage`) -/

/-- The `payload.sender`. -/
structure GhSender where
  login : String
  html_url : String
  avatar_url : String
  deriving DecidableEq, Repr

/-- The `payload.repository`. -/
structure GhRepository where
  name : String
  deriving DecidableEq, Repr

/-- The `commit.author`. -/
structure GhCommitAuthor where
  name : String
  deriving DecidableEq, Repr

/-- One element of `payload.commits`. -/
structure GhCommit where
  id : String
  message : String
  url : String
  author : GhCommitAuthor
  deriving DecidableEq, Repr

/-- The `payload.pull_request`. -/
structure GhPullRequest where
  number : Nat
  html_url : String
  title : String
  state : String
  merged : Bool
  body : Option String
  deriving DecidableEq, Repr

/-- The `payload.issue`. -/
structure GhIssue where
  number : Nat
  html_url : String
  title : String
  body : Option String
  deriving DecidableEq, Repr

/-- The `payload.comment.user`. -/
structure GhCommentUser where
  login : String
  deriving DecidableEq, Repr

/-- The `payload.comment`. -/
structure GhComment where
  html_url : String
  body : Option String
  user : GhCommentUser
  deriving DecidableEq, Repr

/-- A GitHub webhook payload; every top-level object the formatter may
dereference is optional, as in the incoming JSON. -/
structure GhPayload where
  sender : Option GhSender := none
  repository : Option GhRepository := none
  ref : Option String := none
  compare : Option String := none
  commits : Option (List GhCommit) := none
  action : Option String := none
  pull_request : Option GhPullRequest := none
  issue : Option GhIssue := none
  comment : Option GhComment := none
  deriving DecidableEq, Repr

/-- The base embed built before the event-type dispatch. -/
def ghBaseEmbed (p : GhPayload) (nowIso : String) : Embed :=
  { title := ""
    description := ""
    url := some ""
    color := 0x2EA44F
    timestamp := nowIso
    footer := { text := "GitHub"
                icon_url := "https://github.githubassets.com/assets/GitHub-Mark-ea2971cee799.png" }
    author := some
      { name := match p.sender with | some s => s.login | none => "Unknown"
        url := match p.sender with | some s => s.html_url | none => ""
        icon_url := match p.sender with | some s => s.avatar_url | none => "" }
    fields := [] }

/-- The field rendered for one commit of a push event. -/
def commitField (c : GhCommit) : EmbedField :=
  { name := c.id.take 7
    value := some ("[" ++ firstLine c.message ++ "](" ++ c.url ++ ") - " ++ c.author.name) }

/-- The extra field rendered when a push carries more than five commits. -/
def moreCommitsField (n : Nat) : EmbedField :=
  { name := "..."
    value := some (toString (n - 5) ++ " more commits not shown") }

/-- The `formatGitHubMessage(payload, eventType)` from the source.  The call
to `new Date().toISOString()` is passed in as `nowIso`.  Unguarded
property accesses throw, so the result lives in `Except JsError`. -/
def formatGitHubMessage (p : GhPayload) (eventType : String) (nowIso : String) :
    Except JsError Embed := do
  let embed := ghBaseEmbed p nowIso
  if eventType = "push" then
    let ref ← jsGet p.ref
    let repo ← jsGet p.repository
    let branch := jsReplaceFirst ref "refs/heads/" ""
    let commitsAll ← jsGet p.commits
    let commits := commitsAll.take 5
    let embed := { embed with
      title := "[" ++ repo.name ++ "] Push to " ++ branch
      url := p.compare }
    if commits.length > 0 then
      let fields := commits.map commitField
      let fields := if commitsAll.length > 5 then
          fields ++ [moreCommitsField commitsAll.length]
        else fields
      pure { embed with
        description := toString commitsAll.length ++ " commit(s) pushed"
        fields := fields }
    else
      pure embed
  else if eventType = "pull_request" then
    let repo ← jsGet p.repository
    let pr ← jsGet p.pull_request
    let embed := { embed with
      title := "[" ++ repo.name ++ "] Pull Request " ++ jsTemplate p.action
      url := some pr.html_url
      description := "[#" ++ toString pr.number ++ ": " ++ pr.title ++
        "](" ++ pr.html_url ++ ")"
      fields := [ { name := "State", value := some pr.state, inline := some true },
                  { name := "Merged", value := some (if pr.merged then "Yes" else "No"),
                    inline := some true } ] }
    if jsTruthy pr.body then
      let b := pr.body.getD ""
      pure { embed with fields := embed.fields ++
        [{ name := "Description", value := some (truncateBody b) }] }
    else
      pure embed
  else if eventType = "issues" then
    let repo ← jsGet p.repository
    let issue ← jsGet p.issue
    let embed := { embed with
      title := "[" ++ repo.name ++ "] Issue " ++ jsTemplate p.action
      url := some issue.html_url
      description := "[#" ++ toString issue.number ++ ": " ++ issue.title ++
        "](" ++ issue.html_url ++ ")"
      color := 0xE99455 }
    if jsTruthy issue.body then
      let b := issue.body.getD ""
      pure { embed with fields := embed.fields ++
        [{ name := "Description", value := some (truncateBody b) }] }
    else
      pure embed
  else if eventType = "issue_comment" then
    let repo ← jsGet p.repository
    let issue ← jsGet p.issue
    let comment ← jsGet p.comment
    let embed := { embed with
      title := "[" ++ repo.name ++ "] Comment on issue #" ++ toString issue.number
      url := some comment.html_url
      description := comment.user.login ++ " commented on [#" ++ toString issue.number ++
        ": " ++ issue.title ++ "](" ++ issue.html_url ++ ")" }
    if jsTruthy comment.body then
      let b := comment.body.getD ""
      pure { embed with fields := embed.fields ++
        [{ name := "Comment", value := some (truncateBody b) }] }
    else
      pure embed
  else
    let repo ← jsGet p.repository
    pure { embed with
      title := "[" ++ repo.name ++ "] " ++ eventType ++ " event received"
      description := "Unsupported event type" }

/-! ## Message sender (`sendDiscordMessage`) -/

/-- The decoded response data of the outbound chat call (opaque here). -/
abbrev DiscordResp := String

/-- The `sendDiscordMessage(webhookUrl, embed)` from the source, with the
outcome of `axios.post` supplied as `postResult`.  On failure in test
mode the source's `catch` block evaluates `echo: payload`, but `payload`
is a `const` declared inside the `try` block and is out of scope in the
`catch` block, so the branch raises a `ReferenceError` instead of
returning the intended mock-success object. -/
def sendDiscordMessage (testMode : Bool) (postResult : Except String DiscordResp)
    (_embed : Embed) : Except JsError DiscordResp :=
  match postResult with
  | .ok r => .ok r
  | .error msg =>
    if testMode then
      .error .referenceError
    else
      .error (.thrown msg)

/-! ## GitHub webhook handler (`verifyGitHubSignature`, `handleWebhook`) -/

/-- The `verifyGitHubSignature(req, secret)` from the source.  `digestHex`
stands for the hex HMAC-SHA256 of `JSON.stringify(req.body)` under
`secret`, as computed by the external `crypto` library. -/
def verifyGitHubSignature (secret : String) (sigHeader : Option String)
    (digestHex : String) : Except JsError Bool :=
  if secret = "" then .ok true
  else if ¬ jsTruthy sigHeader then .ok false
  else
    timingSafeEqual (sigHeader.getD "") ("sha256=" ++ digestHex)

/-- An inbound request to the GitHub webhook endpoint. -/
structure GhRequest where
  method : String
  signatureHeader : Option String := none
  eventHeader : Option String := none
  payload : GhPayload := {}
  deriving DecidableEq, Repr

/-- The observable HTTP response of the GitHub webhook endpoint. -/
inductive GhResponse where
  /-- A 405 "Method not allowed". -/
  | methodNotAllowed : GhResponse
  /-- A 403 "Invalid signature". -/
  | forbidden : GhResponse
  /-- A 400 "No event type specified". -/
  | badRequest : GhResponse
  /-- A 200 JSON body with the Discord response (test mode). -/
  | okTestJson : DiscordResp → GhResponse
  /-- A 200 "Webhook processed successfully". -/
  | okPlain : GhResponse
  /-- A 202 "Event type not processed". -/
  | accepted : GhResponse
  /-- A 500 "Error processing webhook" (from the handler's catch or the
  endpoint wrapper's catch in `index.js`). -/
  | internalError : GhResponse
  deriving DecidableEq, Repr

/-- The event types relayed by the handler. -/
def supportedEvents : List String := ["push", "pull_request", "issues", "issue_comment"]

/-- The `handleWebhook(req, res, discordWebhookUrl, secret)` from the source,
composed with the `index.js` wrapper that maps an escaped exception to a
500 response.  Returns the response together with a flag telling whether
an outbound chat call was attempted. -/
def handleWebhook (req : GhRequest) (secret : String) (testMode : Bool)
    (digestHex : String) (postResult : Except String DiscordResp)
    (nowIso : String) : GhResponse × Bool :=
  if req.method ≠ "POST" then (.methodNotAllowed, false)
  else
    let sigStep : Except JsError Bool :=
      if secret ≠ "" ∧ testMode = false then
        verifyGitHubSignature secret req.signatureHeader digestHex
      else .ok true
    match sigStep with
    | .error _ => (.internalError, false)
    | .ok false => (.forbidden, false)
    | .ok true =>
      if ¬ jsTruthy req.eventHeader then (.badRequest, false)
      else
        let eventType := req.eventHeader.getD ""
        if eventType ∈ supportedEvents then
          match formatGitHubMessage req.payload eventType nowIso with
          | .error _ => (.internalError, false)
          | .ok embed =>
            match sendDiscordMessage testMode postResult embed with
            | .ok r => (if testMode then .okTestJson r else .okPlain, true)
            | .error _ => (.internalError, true)
        else (.accepted, false)

/-! ## Trello payloads (`formatTrelloMessage`, `handleTrelloEvent`) -/

/-- The `action.data.list`, `listBefore`, `listAfter`. -/
structure TrelloList where
  name : String
  deriving DecidableEq, Repr

/-- The `action.data.label`; both `name` and `color` may be absent. -/
structure TrelloLabel where
  name : Option String := none
  color : Option String := none
  deriving DecidableEq, Repr

/-- The `action.data.member`. -/
structure TrelloMember where
  name : String
  deriving DecidableEq, Repr

/-- The `action.memberCreator`. -/
structure TrelloMemberCreator where
  fullName : String
  deriving DecidableEq, Repr

/-- The `action.data.card`. -/
structure TrelloCard where
  name : String
  due : Option String := none
  deriving DecidableEq, Repr

/-- The `action.data.old`: `hasDue` models `hasOwnProperty("due")`, and `due`
the (possibly null) value stored under the key. -/
structure TrelloOld where
  hasDue : Bool
  due : Option String := none
  deriving DecidableEq, Repr

/-- The `action.data`. -/
structure TrelloActionData where
  card : Option TrelloCard := none
  list : Option TrelloList := none
  listBefore : Option TrelloList := none
  listAfter : Option TrelloList := none
  old : Option TrelloOld := none
  text : Option String := none
  member : Option TrelloMember := none
  label : Option TrelloLabel := none
  deriving DecidableEq, Repr

/-- The `data.action`. -/
structure TrelloAction where
  type : Option String := none
  data : Option TrelloActionData := none
  memberCreator : Option TrelloMemberCreator := none
  deriving DecidableEq, Repr

/-- The `data.model`. -/
structure TrelloModel where
  url : String
  deriving DecidableEq, Repr

/-- A Trello webhook payload. -/
structure TrelloPayload where
  action : Option TrelloAction := none
  model : Option TrelloModel := none
  deriving DecidableEq, Repr

/-- The footer shared by all Trello cards. -/
def trelloFooter : EmbedFooter :=
  { text := "Trello"
    icon_url := "https://d2k1ftgv7pobq7.cloudfront.net/meta/u/res/images/trello-header-logos/76ceb1faa939ede03abacb6efacdde16/trello-logo-blue.svg" }

/-- The action types filtered out by `formatTrelloMessage`. -/
def filteredTypes : List String :=
  ["createCheckItem", "updateCheckItem", "addAttachmentToCard",
   "addChecklistToCard", "updateCheckItemStateOnCard"]

/-- The `data.model?.url || ""`. -/
def trelloModelUrl (d : TrelloPayload) : String :=
  match d.model with
  | some m => if m.url ≠ "" then m.url else ""
  | none => ""

/-- The `x ? dateToLocaleString(x) : "None"` for the due-date fields. -/
def dueDisplay (due : Option String) : String :=
  if jsTruthy due then dateToLocaleString (due.getD "") else "None"

/-- The `x || y` on two possibly-absent strings, as in
`action.data.label.name || action.data.label.color`. -/
def jsOrStr (a b : Option String) : Option String :=
  if jsTruthy a then a else b

/-- The `formatTrelloMessage(data)` from the source; `nowIso` stands for
`new Date().toISOString()`.  Returns `none` for filtered action types
and throws on unguarded accesses of absent properties. -/
def formatTrelloMessage (d : TrelloPayload) (nowIso : String) :
    Except JsError (Option Embed) := do
  match d.action with
  | none =>
    pure (some { title := "Trello Activity", description := "Unrecognized Trello event",
                 url := some (trelloModelUrl d), color := 0x0079BF, timestamp := nowIso,
                 footer := trelloFooter, author := none, fields := [] })
  | some action =>
    if ¬ jsTruthy action.type then
      pure (some { title := "Trello Activity", description := "Unrecognized Trello event",
                   url := some (trelloModelUrl d), color := 0x0079BF, timestamp := nowIso,
                   footer := trelloFooter, author := none, fields := [] })
    else
      let actionType := action.type.getD ""
      if actionType ∈ filteredTypes then
        pure none
      else
        let embed : Embed :=
          { title := "", description := "", url := some (trelloModelUrl d),
            color := 0x0079BF, timestamp := nowIso, footer := trelloFooter,
            author := none, fields := [] }
        let memberName :=
          match action.memberCreator with
          | some mc => mc.fullName
          | none => "Unknown"
        if actionType = "createCard" then
          let dat ← jsGet action.data
          let card ← jsGet dat.card
          let model ← jsGet d.model
          let embed := { embed with
            title := "Card Created"
            description := memberName ++ " created card [" ++ card.name ++ "](" ++ model.url ++ ")" }
          match dat.list with
          | some l =>
            pure (some { embed with fields :=
              [{ name := "List", value := some l.name, inline := some true }] })
          | none => pure (some embed)
        else if actionType = "updateCard" then
          let dat ← jsGet action.data
          if dat.listBefore.isSome ∧ dat.listAfter.isSome then
            let card ← jsGet dat.card
            let model ← jsGet d.model
            pure (some { embed with
              title := "Card Moved"
              description := memberName ++ " moved card [" ++ card.name ++ "](" ++ model.url ++ ")"
              fields :=
                [{ name := "From", value := some ((dat.listBefore.getD ⟨""⟩).name), inline := some true },
                 { name := "To", value := some ((dat.listAfter.getD ⟨""⟩).name), inline := some true }] })
          else if (match dat.old with | some o => o.hasDue | none => false) then
            let card ← jsGet dat.card
            let model ← jsGet d.model
            let old := dat.old.getD { hasDue := true }
            pure (some { embed with
              title := "Due Date Changed"
              description := memberName ++ " updated due date for card [" ++ card.name ++ "](" ++ model.url ++ ")"
              fields :=
                [{ name := "From", value := some (dueDisplay old.due), inline := some true },
                 { name := "To", value := some (dueDisplay card.due), inline := some true }] })
          else
            let card ← jsGet dat.card
            let model ← jsGet d.model
            pure (some { embed with
              title := "Card Updated"
              description := memberName ++ " updated card [" ++ card.name ++ "](" ++ model.url ++ ")" })
        else if actionType = "commentCard" then
          let dat ← jsGet action.data
          let card ← jsGet dat.card
          let model ← jsGet d.model
          let embed := { embed with
            title := "Comment Added"
            description := memberName ++ " commented on card [" ++ card.name ++ "](" ++ model.url ++ ")" }
          if jsTruthy dat.text then
            pure (some { embed with fields :=
              [{ name := "Comment", value := some (truncateBody (dat.text.getD "")) }] })
          else
            pure (some embed)
        else if actionType = "addMemberToCard" then
          let dat ← jsGet action.data
          let member ← jsGet dat.member
          let card ← jsGet dat.card
          let model ← jsGet d.model
          pure (some { embed with
            title := "Member Added to Card"
            description := memberName ++ " added " ++ member.name ++ " to card [" ++ card.name ++ "](" ++ model.url ++ ")" })
        else if actionType = "removeMemberFromCard" then
          let dat ← jsGet action.data
          let member ← jsGet dat.member
          let card ← jsGet dat.card
          let model ← jsGet d.model
          pure (some { embed with
            title := "Member Removed from Card"
            description := memberName ++ " removed " ++ member.name ++ " from card [" ++ card.name ++ "](" ++ model.url ++ ")" })
        else if actionType = "addLabelToCard" then
          let dat ← jsGet action.data
          let card ← jsGet dat.card
          let model ← jsGet d.model
          let embed := { embed with
            title := "Label Added"
            description := memberName ++ " added label to card [" ++ card.name ++ "](" ++ model.url ++ ")" }
          match dat.label with
          | some l =>
            pure (some { embed with fields :=
              [{ name := "Label", value := jsOrStr l.name l.color, inline := some true }] })
          | none => pure (some embed)
        else
          pure (some { embed with
            title := "Trello Activity"
            description := memberName ++ " performed action: " ++ actionType })

/-- The observable HTTP response of the Trello notification endpoint. -/
inductive TrelloResponse where
  /-- A 200 (HEAD/GET liveness acknowledgement from `index.js`). -/
  | okLiveness : TrelloResponse
  /-- A 400 "Invalid Trello payload". -/
  | badRequest : TrelloResponse
  /-- A 200 "Trello event filtered (notification not sent)". -/
  | okFiltered : TrelloResponse
  /-- A 200 JSON body with the Discord response (test mode). -/
  | okTestJson : DiscordResp → TrelloResponse
  /-- A 200 "Trello event processed successfully". -/
  | okPlain : TrelloResponse
  /-- A 500 "Error processing Trello event". -/
  | internalError : TrelloResponse
  deriving DecidableEq, Repr

/-- The `handleTrelloEvent(req, res, discordWebhookUrl)` from the source,
composed with the `index.js` wrapper (HEAD/GET short-circuit to 200 and
escaped exceptions map to 500).  The request body may be absent.
Returns the response and whether an outbound chat call was attempted. -/
def handleTrelloEvent (method : String) (testMode : Bool)
    (body : Option TrelloPayload) (postResult : Except String DiscordResp)
    (nowIso : String) : TrelloResponse × Bool :=
  if method = "HEAD" ∨ method = "GET" then (.okLiveness, false)
  else
    let invalid := match body with
      | none => true
      | some b => b.action.isNone
    if !testMode && invalid then (.badRequest, false)
    else
      match body with
      | none => (.internalError, false)
      | some b =>
        match formatTrelloMessage b nowIso with
        | .error _ => (.internalError, false)
        | .ok none => (.okFiltered, false)
        | .ok (some embed) =>
          match sendDiscordMessage testMode postResult embed with
          | .ok r => (if testMode then .okTestJson r else .okPlain, true)
          | .error _ => (.internalError, true)

/-! ## Board registration flow (`registerBoard`) -/

/-- The `encodeURIComponent`: percent-encodes every character outside the
JavaScript unreserved set `A-Z a-z 0-9 - _ . ! ~ * ' ( )` (multi-byte
characters are encoded per UTF-8 byte). -/
def encodeURIComponent (s : String) : String :=
  let hexDigit (n : Nat) : Char :=
    if n < 10 then Char.ofNat (48 + n) else Char.ofNat (55 + n)
  let unreserved (c : Char) : Bool :=
    (65 ≤ c.toNat && c.toNat ≤ 90) || (97 ≤ c.toNat && c.toNat ≤ 122) ||
    (48 ≤ c.toNat && c.toNat ≤ 57) ||
    c = '-' || c = '_' || c = '.' || c = '!' || c = '~' || c = '*' ||
    c = '\x27' || c = '(' || c = ')'
  let encodeByte (b : UInt8) : List Char :=
    ['%', hexDigit (b.toNat / 16), hexDigit (b.toNat % 16)]
  ⟨s.data.flatMap fun c =>
    if unreserved c then [c] else (String.singleton c).toUTF8.toList.flatMap encodeByte⟩

/-- An inbound request to the registration endpoint. -/
structure RegRequest where
  boardId : Option String := none
  token : Option String := none
  referer : Option String := none
  protocol : String := "https"
  hostname : String := "example.com"
  deriving DecidableEq, Repr

/-- Configuration read by the registration endpoint. -/
structure RegConfig where
  apiKey : String
  trelloApiUrl : String := "https://api.trello.com/1"
  deriving DecidableEq, Repr

/-- The `boardResponse.data` of the board-verification GET call. -/
structure TrelloBoardInfo where
  name : String
  id : Option String := none
  deriving DecidableEq, Repr

/-- The observable response of the registration endpoint. -/
inductive RegResponse where
  /-- A 400 JSON `{error, usage}`. -/
  | badRequestJson : String → String → RegResponse
  /-- A 500 JSON `{error, message}`. -/
  | serverErrorJson : String → String → RegResponse
  /-- A 200 HTML page whose script promotes the fragment token; carries the
  board id embedded into the script. -/
  | fragmentPage : String → RegResponse
  /-- A 302 redirect to the given URL. -/
  | redirect : String → RegResponse
  /-- A 200 HTML success page carrying the webhook-registration response. -/
  | successPage : String → RegResponse
  /-- A 500 HTML error page carrying the error message and the board id. -/
  | errorPage : String → String → RegResponse
  deriving DecidableEq, Repr

/-- The authorization URL built for the initial redirect (source lines
68–80 of `registration.js`). -/
def trelloAuthUrl (req : RegRequest) (cfg : RegConfig) (boardId : String) : String :=
  let redirectUri := req.protocol ++ "://" ++ req.hostname ++
    "/registerTrelloBoard?boardId=" ++ boardId
  let trelloDomain :=
    if jsIncludes cfg.trelloApiUrl "localhost" then cfg.trelloApiUrl
    else "https://trello.com"
  trelloDomain ++ "/1/authorize?expiration=never&scope=read,write&response_type=token&name=" ++
    encodeURIComponent "Discord Notifications" ++ "&key=" ++ cfg.apiKey ++
    "&return_url=" ++ encodeURIComponent redirectUri

/-- The `registerBoard(req, res)` from the source.  The two outbound Trello
calls are supplied as `getBoard` (the board-verification GET) and
`postWebhook` (the webhook-registration POST); an `.error` value is the
message of the exception the call would raise. -/
def registerBoard (req : RegRequest) (cfg : RegConfig)
    (getBoard : Except String TrelloBoardInfo)
    (postWebhook : Except String String) : RegResponse :=
  if ¬ jsTruthy req.boardId then
    .badRequestJson "Missing required parameter: boardId"
      "Add ?boardId=YOUR_BOARD_ID to the URL"
  else
    let boardId := req.boardId.getD ""
    if cfg.apiKey = "" then
      .serverErrorJson "Trello API key not configured"
        "The server administrator needs to set up a Trello API key first."
    else if ¬ jsTruthy req.token then
      if (match req.referer with
          | some r => jsIncludes r "trello.com/1/authorize"
          | none => false) then
        .fragmentPage boardId
      else
        .redirect (trelloAuthUrl req cfg boardId)
    else
      match getBoard with
      | .error msg =>
        .errorPage ("Board verification failed: " ++ msg ++
          ". Make sure the board ID is correct and you have access to it.") boardId
      | .ok info =>
        if ¬ jsTruthy info.id then
          .errorPage ("Board verification failed: Couldn't retrieve the full board ID. Make sure the board ID is correct and you have access to it.")
            boardId
        else
          match postWebhook with
          | .ok data => .successPage data
          | .error msg => .errorPage msg boardId

/-- The token extraction performed client-side by the fragment-promotion
page's script: `hash.match(/#token=([^&]+)/)` captures one or more
non-`&` characters after the first `#token=`. -/
def fragmentExtractToken (hash : String) : Option String :=
  match afterFirst hash.data "#token=".data with
  | none => none
  | some rest =>
    let tok := rest.takeWhile (· ≠ '&')
    if tok = [] then none else some ⟨tok⟩

/-- The URL the fragment-promotion page's script navigates to:
`"/registerTrelloBoard?boardId=" + boardId + "&token=" + token`, where
`boardId` is the value the server embedded into the page. -/
def fragmentPageRedirect (embeddedBoardId : String) (hash : String) : Option String :=
  (fragmentExtractToken hash).map fun tok =>
    "/registerTrelloBoard?boardId=" ++ embeddedBoardId ++ "&token=" ++ tok

/-! ## Well-formedness predicates -/

/-- The fields a GitHub payload must carry for `formatGitHubMessage` not
to dereference `undefined` on the given event type. -/
def ghWellFormed (p : GhPayload) (eventType : String) : Bool :=
  p.repository.isSome &&
  (if eventType = "push" then p.ref.isSome && p.commits.isSome
   else if eventType = "pull_request" then p.pull_request.isSome
   else if eventType = "issues" then p.issue.isSome
   else if eventType = "issue_comment" then p.issue.isSome && p.comment.isSome
   else true)

/-- A well-typed Trello payload in the sense of the specification: the
objects each dispatch branch dereferences unconditionally are present,
while `list`, `label`, `text` and the other guarded sub-fields stay
free to be absent. -/
def trelloWellTyped (p : TrelloPayload) : Bool :=
  match p.action with
  | none => true
  | some a =>
    match a.type with
    | none => true
    | some t =>
      if t = "" then true
      else if t ∈ filteredTypes then true
      else if t = "createCard" ∨ t = "updateCard" ∨ t = "commentCard" ∨ t = "addLabelToCard" then
        (a.data.bind (·.card)).isSome && p.model.isSome
      else if t = "addMemberToCard" ∨ t = "removeMemberFromCard" then
        (a.data.bind (·.card)).isSome && (a.data.bind (·.member)).isSome && p.model.isSome
      else true

/-! ## Theorems -/

/-- C8: in test mode a failed outbound delivery does not produce the
intended synthetic success object: the `catch` block references the
`try`-scoped `payload` binding, so the call raises a `ReferenceError`
instead of returning `{success: true, ...}` (the Trello and GitHub
handlers then turn this into a 500). -/
theorem sendDiscordMessage_testMode_failure_raises :
    ∀ (embed : Embed) (msg : String),
      sendDiscordMessage true (.error msg) embed = .error .referenceError := by
  intro embed msg
  rfl

/-- C1 counterexample: `formatGitHubMessage` is not total on all
payloads — on a payload without a `repository` object and an
unsupported event type, the default branch dereferences
`payload.repository.name` and throws a `TypeError`. -/
theorem formatGitHubMessage_not_total :
    formatGitHubMessage {} "deployment" "2025-01-01T00:00:00Z" = .error .typeError := by
  rfl

/-- C1 (amended): for every payload carrying the objects its event-type
branch dereferences (`ghWellFormed`), `formatGitHubMessage` returns a
card, and for every event type outside the supported set the card is
the default one, whose title is `[<repo>] <eventType> event received`
(hence contains the repository name and the raw event type). -/
theorem ok_bind {ε α β : Type} (a : α) (f : α → Except ε β) :
    (Except.ok a : Except ε α) >>= f = f a := rfl

theorem error_bind {ε α β : Type} (e : ε) (f : α → Except ε β) :
    (Except.error e : Except ε α) >>= f = Except.error e := rfl

theorem pure_eq_ok {ε α : Type} (a : α) : (pure a : Except ε α) = Except.ok a := rfl

theorem formatGitHubMessage_total_of_wellFormed (p : GhPayload) (et now : String)
    (h : ghWellFormed p et = true) :
    (∃ e, formatGitHubMessage p et now = .ok e) ∧
    (et ∉ supportedEvents → ∀ repo, p.repository = some repo →
      formatGitHubMessage p et now = .ok
        { ghBaseEmbed p now with
          title := "[" ++ repo.name ++ "] " ++ et ++ " event received"
          description := "Unsupported event type" }) := by
  rcases hrep : p.repository with _ | repo
  · simp [ghWellFormed, hrep] at h
  by_cases h1 : et = "push"
  · subst h1
    rcases hr : p.ref with _ | r
    · simp [ghWellFormed, hr] at h
    rcases hcs : p.commits with _ | cs
    · simp [ghWellFormed, hcs] at h
    refine ⟨?_, fun hns => absurd (by decide) hns⟩
    simp only [formatGitHubMessage, hrep, hr, hcs, jsGet, ok_bind, pure_eq_ok,
      if_pos rfl]
    by_cases hlen : (List.take 5 cs).length > 0
    · simp only [if_pos hlen]
      exact ⟨_, rfl⟩
    · simp only [if_neg hlen]
      exact ⟨_, rfl⟩
  · by_cases h2' : et = "pull_request"
    · subst h2'
      rcases hpr : p.pull_request with _ | pr
      · simp [ghWellFormed, hpr] at h
      refine ⟨?_, fun hns => absurd (by decide) hns⟩
      simp only [formatGitHubMessage, hrep, hpr, jsGet, ok_bind, pure_eq_ok,
        if_neg (by decide : ¬("pull_request" : String) = "push"), if_pos rfl]
      by_cases hb : jsTruthy pr.body = true
      · simp only [if_pos hb]
        exact ⟨_, rfl⟩
      · simp only [if_neg hb]
        exact ⟨_, rfl⟩
    · by_cases h3 : et = "issues"
      · subst h3
        rcases hiss : p.issue with _ | issue
        · simp [ghWellFormed, hiss] at h
        refine ⟨?_, fun hns => absurd (by decide) hns⟩
        simp only [formatGitHubMessage, hrep, hiss, jsGet, ok_bind, pure_eq_ok,
          if_neg (by decide : ¬("issues" : String) = "push"),
          if_neg (by decide : ¬("issues" : String) = "pull_request"), if_pos rfl]
        by_cases hb : jsTruthy issue.body = true
        · simp only [if_pos hb]
          exact ⟨_, rfl⟩
        · simp only [if_neg hb]
          exact ⟨_, rfl⟩
      · by_cases h4 : et = "issue_comment"
        · subst h4
          rcases hiss : p.issue with _ | issue
          · simp [ghWellFormed, hiss] at h
          rcases hc : p.comment with _ | c
          · simp [ghWellFormed, hc] at h
          refine ⟨?_, fun hns => absurd (by decide) hns⟩
          simp only [formatGitHubMessage, hrep, hiss, hc, jsGet, ok_bind, pure_eq_ok,
            if_neg (by decide : ¬("issue_comment" : String) = "push"),
            if_neg (by decide : ¬("issue_comment" : String) = "pull_request"),
            if_neg (by decide : ¬("issue_comment" : String) = "issues"), if_pos rfl]
          by_cases hb : jsTruthy c.body = true
          · simp only [if_pos hb]
            exact ⟨_, rfl⟩
          · simp only [if_neg hb]
            exact ⟨_, rfl⟩
        · have hfmt : formatGitHubMessage p et now = .ok
              { ghBaseEmbed p now with
                title := "[" ++ repo.name ++ "] " ++ et ++ " event received"
                description := "Unsupported event type" } := by
            simp only [formatGitHubMessage, hrep, jsGet, ok_bind, pure_eq_ok,
              if_neg h1, if_neg h2', if_neg h3, if_neg h4]
          exact ⟨⟨_, hfmt⟩, fun _ repo' hrepo' => by
            obtain rfl : repo = repo' := Option.some_inj.mp hrepo'
            exact hfmt⟩

/-- A payload carrying only a repository, used to witness the default branch. -/
def ghSampleUnsupported : GhPayload := { repository := some { name := "test-repo" } }

/-- Witness: the amended C1 theorem applied to a concrete payload and the
unsupported event type `deployment_status`. -/
theorem formatGitHubMessage_total_witness :
    formatGitHubMessage ghSampleUnsupported "deployment_status" "2025-01-01T00:00:00Z" = .ok
      { ghBaseEmbed ghSampleUnsupported "2025-01-01T00:00:00Z" with
        title := "[" ++ "test-repo" ++ "] " ++ "deployment_status" ++ " event received"
        description := "Unsupported event type" } :=
  (formatGitHubMessage_total_of_wellFormed ghSampleUnsupported "deployment_status"
    "2025-01-01T00:00:00Z" (by decide)).2 (by decide) { name := "test-repo" } rfl

/-- C5: for every push payload with commit list `cs`, the card's fields
are exactly the commit fields of the first `min (cs.length) 5` commits
— each named by the first seven characters of the commit id, valued
`[<first line of message>](<url>) - <author>` — followed, when more
than five commits were pushed, by one extra field reporting
`cs.length - 5` more commits. -/
theorem push_commit_fields (p : GhPayload) (repo : GhRepository) (r : String)
    (cs : List GhCommit) (now : String)
    (hrep : p.repository = some repo) (hr : p.ref = some r) (hcs : p.commits = some cs) :
    ∃ e, formatGitHubMessage p "push" now = .ok e ∧
      e.fields = (cs.take 5).map commitField ++
        (if 5 < cs.length then [moreCommitsField cs.length] else []) ∧
      e.fields.length = min cs.length 5 + (if 5 < cs.length then 1 else 0) := by
  simp only [formatGitHubMessage, hrep, hr, hcs, jsGet, ok_bind, pure_eq_ok, if_pos rfl]
  by_cases hlen : (List.take 5 cs).length > 0
  · simp only [if_pos hlen]
    refine ⟨_, rfl, ?_, ?_⟩
    · by_cases h5 : cs.length > 5
      · simp [if_pos h5, h5]
      · simp [if_neg h5, h5]
    · by_cases h5 : cs.length > 5
      · simp only [if_pos h5, List.length_append, List.length_map, List.length_take,
          List.length_singleton]
        omega
      · simp only [if_neg h5, List.length_map, List.length_take, List.append_nil]
        omega
  · have hnil : cs = [] := by
      rcases cs with _ | ⟨c, cs'⟩
      · rfl
      · simp at hlen
    subst hnil
    simp only [if_neg hlen]
    exact ⟨_, rfl, by simp [ghBaseEmbed], by simp [ghBaseEmbed]⟩

/-- A commit used in the C5 witness. -/
def sampleCommit (i : String) : GhCommit :=
  { id := i, message := "subject line\nrest of message", url := "https://example.com/c/" ++ i,
    author := { name := "Alice" } }

/-- Seven commits, to exercise the more-than-five branch. -/
def sampleCommits : List GhCommit :=
  [sampleCommit "1111111aaa", sampleCommit "2222222aaa", sampleCommit "3333333aaa",
   sampleCommit "4444444aaa", sampleCommit "5555555aaa", sampleCommit "6666666aaa",
   sampleCommit "7777777aaa"]

/-- The push payload used in the C5 witness. -/
def pushSample : GhPayload :=
  { repository := some { name := "test-repo" }
    ref := some "refs/heads/main"
    compare := some "https://example.com/compare"
    commits := some sampleCommits }

/-- Witness: C5 applied to a concrete push payload with seven commits. -/
theorem push_commit_fields_witness :
    ∃ e, formatGitHubMessage pushSample "push" "2025-01-01T00:00:00Z" = .ok e ∧
      e.fields = (sampleCommits.take 5).map commitField ++ [moreCommitsField 7] ∧
      e.fields.length = 6 := by
  obtain ⟨e, he, hf, hl⟩ := push_commit_fields pushSample { name := "test-repo" }
    "refs/heads/main" sampleCommits "2025-01-01T00:00:00Z" rfl rfl rfl
  refine ⟨e, he, ?_, ?_⟩
  · simpa using hf
  · simpa using hl

/-- C6: bodies longer than 1000 characters render as exactly their first
997 characters followed by `...` (1000 characters total); bodies of
length at most 1000 render unchanged.  The last two conjuncts tie the
shared truncation expression to the pull-request `Description` field and
the board-comment `Comment` field. -/
theorem bodies_truncated_to_1000 :
    (∀ s : String, 1000 < s.length →
      truncateBody s = s.take 997 ++ "..." ∧ (truncateBody s).length = 1000) ∧
    (∀ s : String, s.length ≤ 1000 → truncateBody s = s) ∧
    (∀ (p : GhPayload) (repo : GhRepository) (pr : GhPullRequest) (b now : String),
      p.repository = some repo → p.pull_request = some pr → pr.body = some b → b ≠ "" →
      ∃ e, formatGitHubMessage p "pull_request" now = .ok e ∧
        e.fields.getLast? = some { name := "Description", value := some (truncateBody b) }) ∧
    (∀ (d : TrelloPayload) (a : TrelloAction) (dat : TrelloActionData)
       (c : TrelloCard) (m : TrelloModel) (t now : String),
      d.action = some a → a.type = some "commentCard" → a.data = some dat →
      dat.card = some c → d.model = some m → dat.text = some t → t ≠ "" →
      ∃ e, formatTrelloMessage d now = .ok (some e) ∧
        e.fields = [{ name := "Comment", value := some (truncateBody t) }]) := by
  refine ⟨?_, ?_, ?_, ?_⟩
  · intro s hs
    refine ⟨by rw [truncateBody, if_pos hs], ?_⟩
    have hdl : 1000 < s.data.length := hs
    have h1 : (s.take 997).length = 997 := by
      rw [String.take_eq, String.length_mk, List.length_take]
      omega
    rw [truncateBody, if_pos hs, String.length_append, h1]
    rfl
  · intro s hs
    have h' : ¬ (1000 < s.length) := by omega
    rw [truncateBody, if_neg h']
  · intro p repo pr b now hrep hpr hb hb'
    have htr : jsTruthy (some b) = true := by simp [jsTruthy, hb']
    simp only [formatGitHubMessage, hrep, hpr, jsGet, ok_bind, pure_eq_ok, hb, htr]
    exact ⟨_, rfl, rfl⟩
  · intro d a dat c m t now hac hty hdat hcard hmod htext ht'
    have htr : jsTruthy (some t) = true := by simp [jsTruthy, ht']
    simp only [formatTrelloMessage, hac, hty, hdat, hcard, hmod, htext, jsGet,
      ok_bind, pure_eq_ok, htr]
    exact ⟨_, rfl, rfl⟩

/-- A 1001-character body used to witness the truncation theorem. -/
def longBody : String := ⟨List.replicate 1001 'a'⟩

/-- Witness: C6 applied to a concrete 1001-character body. -/
theorem bodies_truncated_witness :
    truncateBody longBody = longBody.take 997 ++ "..." ∧
    (truncateBody longBody).length = 1000 :=
  bodies_truncated_to_1000.1 longBody
    (by rw [longBody, String.length_mk, List.length_replicate]; omega)

/-- C2: on every well-typed Trello payload `formatTrelloMessage` returns
without throwing, and each optional sub-field (`list`, comment `text`,
`label`) that is absent is simply omitted from the card's fields while
the rest of the card is still produced. -/
theorem formatTrelloMessage_total_of_wellTyped (p : TrelloPayload) (now : String)
    (h : trelloWellTyped p = true) :
    (∃ r, formatTrelloMessage p now = .ok r) ∧
    (∀ a dat, p.action = some a → a.type = some "createCard" → a.data = some dat →
      dat.list = none → ∃ e, formatTrelloMessage p now = .ok (some e) ∧ e.fields = []) ∧
    (∀ a dat, p.action = some a → a.type = some "commentCard" → a.data = some dat →
      dat.text = none → ∃ e, formatTrelloMessage p now = .ok (some e) ∧ e.fields = []) ∧
    (∀ a dat, p.action = some a → a.type = some "addLabelToCard" → a.data = some dat →
      dat.label = none → ∃ e, formatTrelloMessage p now = .ok (some e) ∧ e.fields = []) := by
  refine ⟨?_, ?_, ?_, ?_⟩
  · rcases hac : p.action with _ | a
    · simp only [formatTrelloMessage, hac]
      exact ⟨_, rfl⟩
    rcases hty : a.type with _ | t
    · simp only [formatTrelloMessage, jsGet, ok_bind, pure_eq_ok, hac, hty]
      exact ⟨_, rfl⟩
    by_cases ht0 : t = ""
    · subst ht0
      simp only [formatTrelloMessage, jsGet, ok_bind, pure_eq_ok, hac, hty]
      exact ⟨_, rfl⟩
    by_cases hfm : t ∈ filteredTypes
    · simp only [filteredTypes, List.mem_cons, List.not_mem_nil, or_false] at hfm
      rcases hfm with rfl | rfl | rfl | rfl | rfl <;>
        · simp only [formatTrelloMessage, jsGet, ok_bind, pure_eq_ok, hac, hty]
          exact ⟨_, rfl⟩
    by_cases hcc : t = "createCard"
    · subst hcc
      rcases hdat : a.data with _ | dat
      · simp [trelloWellTyped, hac, hty, hdat, filteredTypes] at h
      rcases hc : dat.card with _ | c
      · simp [trelloWellTyped, hac, hty, hdat, hc, filteredTypes] at h
      rcases hm : p.model with _ | m
      · simp [trelloWellTyped, hac, hty, hdat, hc, hm, filteredTypes] at h
      rcases hl : dat.list with _ | l
      · simp only [formatTrelloMessage, jsGet, ok_bind, pure_eq_ok, hac, hty, hdat, hc, hm, hl]
        exact ⟨_, rfl⟩
      · simp only [formatTrelloMessage, jsGet, ok_bind, pure_eq_ok, hac, hty, hdat, hc, hm, hl]
        exact ⟨_, rfl⟩
    by_cases huc : t = "updateCard"
    · subst huc
      rcases hdat : a.data with _ | dat
      · simp [trelloWellTyped, hac, hty, hdat, filteredTypes] at h
      rcases hc : dat.card with _ | c
      · simp [trelloWellTyped, hac, hty, hdat, hc, filteredTypes] at h
      rcases hm : p.model with _ | m
      · simp [trelloWellTyped, hac, hty, hdat, hc, hm, filteredTypes] at h
      rcases hlb : dat.listBefore with _ | lb <;>
        rcases hla : dat.listAfter with _ | la <;>
        rcases hold : dat.old with _ | ⟨(_ | _), due⟩ <;>
        · simp only [formatTrelloMessage, jsGet, ok_bind, pure_eq_ok, hac, hty, hdat, hc, hm, hlb, hla, hold]
          exact ⟨_, rfl⟩
    by_cases hcom : t = "commentCard"
    · subst hcom
      rcases hdat : a.data with _ | dat
      · simp [trelloWellTyped, hac, hty, hdat, filteredTypes] at h
      rcases hc : dat.card with _ | c
      · simp [trelloWellTyped, hac, hty, hdat, hc, filteredTypes] at h
      rcases hm : p.model with _ | m
      · simp [trelloWellTyped, hac, hty, hdat, hc, hm, filteredTypes] at h
      rcases htx : dat.text with _ | txt
      · simp only [formatTrelloMessage, jsGet, ok_bind, pure_eq_ok, hac, hty, hdat, hc, hm, htx]
        exact ⟨_, rfl⟩
      by_cases htx0 : txt = ""
      · subst htx0
        simp only [formatTrelloMessage, jsGet, ok_bind, pure_eq_ok, hac, hty, hdat, hc, hm, htx]
        exact ⟨_, rfl⟩
      · have htt : jsTruthy (some txt) = true := by simp [jsTruthy, htx0]
        simp only [formatTrelloMessage, jsGet, ok_bind, pure_eq_ok, hac, hty, hdat, hc, hm, htx, htt]
        exact ⟨_, rfl⟩
    by_cases hadd : t = "addMemberToCard"
    · subst hadd
      rcases hdat : a.data with _ | dat
      · simp [trelloWellTyped, hac, hty, hdat, filteredTypes] at h
      rcases hmem : dat.member with _ | mem
      · simp [trelloWellTyped, hac, hty, hdat, hmem, filteredTypes] at h
      rcases hc : dat.card with _ | c
      · simp [trelloWellTyped, hac, hty, hdat, hmem, hc, filteredTypes] at h
      rcases hm : p.model with _ | m
      · simp [trelloWellTyped, hac, hty, hdat, hmem, hc, hm, filteredTypes] at h
      simp only [formatTrelloMessage, jsGet, ok_bind, pure_eq_ok, hac, hty, hdat, hmem, hc, hm]
      exact ⟨_, rfl⟩
    by_cases hrem : t = "removeMemberFromCard"
    · subst hrem
      rcases hdat : a.data with _ | dat
      · simp [trelloWellTyped, hac, hty, hdat, filteredTypes] at h
      rcases hmem : dat.member with _ | mem
      · simp [trelloWellTyped, hac, hty, hdat, hmem, filteredTypes] at h
      rcases hc : dat.card with _ | c
      · simp [trelloWellTyped, hac, hty, hdat, hmem, hc, filteredTypes] at h
      rcases hm : p.model with _ | m
      · simp [trelloWellTyped, hac, hty, hdat, hmem, hc, hm, filteredTypes] at h
      simp only [formatTrelloMessage, jsGet, ok_bind, pure_eq_ok, hac, hty, hdat, hmem, hc, hm]
      exact ⟨_, rfl⟩
    by_cases hlbl : t = "addLabelToCard"
    · subst hlbl
      rcases hdat : a.data with _ | dat
      · simp [trelloWellTyped, hac, hty, hdat, filteredTypes] at h
      rcases hc : dat.card with _ | c
      · simp [trelloWellTyped, hac, hty, hdat, hc, filteredTypes] at h
      rcases hm : p.model with _ | m
      · simp [trelloWellTyped, hac, hty, hdat, hc, hm, filteredTypes] at h
      rcases hlab : dat.label with _ | lab
      · simp only [formatTrelloMessage, jsGet, ok_bind, pure_eq_ok, hac, hty, hdat, hc, hm, hlab]
        exact ⟨_, rfl⟩
      · simp only [formatTrelloMessage, jsGet, ok_bind, pure_eq_ok, hac, hty, hdat, hc, hm, hlab]
        exact ⟨_, rfl⟩
    · have hnt : ¬ (¬ jsTruthy (some t) = true) := by simp [jsTruthy, ht0]
      simp only [formatTrelloMessage, jsGet, ok_bind, pure_eq_ok, hac, hty, Option.getD_some, if_neg hnt,
        if_neg hfm, if_neg hcc, if_neg huc, if_neg hcom, if_neg hadd, if_neg hrem,
        if_neg hlbl]
      exact ⟨_, rfl⟩
  · intro a dat hac hty hdat hl
    rcases hc : dat.card with _ | c
    · simp [trelloWellTyped, hac, hty, hdat, hc, filteredTypes] at h
    rcases hm : p.model with _ | m
    · simp [trelloWellTyped, hac, hty, hdat, hc, hm, filteredTypes] at h
    simp only [formatTrelloMessage, jsGet, ok_bind, pure_eq_ok, hac, hty, hdat, hc, hm, hl]
    exact ⟨_, rfl, rfl⟩
  · intro a dat hac hty hdat htx
    rcases hc : dat.card with _ | c
    · simp [trelloWellTyped, hac, hty, hdat, hc, filteredTypes] at h
    rcases hm : p.model with _ | m
    · simp [trelloWellTyped, hac, hty, hdat, hc, hm, filteredTypes] at h
    simp only [formatTrelloMessage, jsGet, ok_bind, pure_eq_ok, hac, hty, hdat, hc, hm, htx]
    exact ⟨_, rfl, rfl⟩
  · intro a dat hac hty hdat hlab
    rcases hc : dat.card with _ | c
    · simp [trelloWellTyped, hac, hty, hdat, hc, filteredTypes] at h
    rcases hm : p.model with _ | m
    · simp [trelloWellTyped, hac, hty, hdat, hc, hm, filteredTypes] at h
    simp only [formatTrelloMessage, jsGet, ok_bind, pure_eq_ok, hac, hty, hdat, hc, hm, hlab]
    exact ⟨_, rfl, rfl⟩

/-- A well-typed `createCard` payload without a `list` sub-field. -/
def trelloCreateSample : TrelloPayload :=
  { action := some { type := some "createCard"
                     data := some { card := some { name := "My card" } }
                     memberCreator := some { fullName := "Alice" } }
    model := some { url := "https://trello.com/b/abc/board" } }

/-- Witness: C2 applied to a concrete well-typed `createCard` payload
whose optional `list` sub-field is absent. -/
theorem formatTrelloMessage_total_witness :
    ∃ e, formatTrelloMessage trelloCreateSample "2025-01-01T00:00:00Z" = .ok (some e) ∧
      e.fields = [] :=
  (formatTrelloMessage_total_of_wellTyped trelloCreateSample "2025-01-01T00:00:00Z"
    (by decide)).2.1 _ _ rfl rfl rfl rfl

/-- C7: for every board payload whose action type is in the filtered
set, `formatTrelloMessage` returns `null` and `handleTrelloEvent`
responds 200 without attempting an outbound chat call (in either mode,
for any outcome the chat call would have had). -/
theorem filtered_types_acknowledged (p : TrelloPayload) (a : TrelloAction) (t : String)
    (testMode : Bool) (post : Except String DiscordResp) (now : String)
    (hac : p.action = some a) (hty : a.type = some t) (hf : t ∈ filteredTypes) :
    formatTrelloMessage p now = .ok none ∧
    handleTrelloEvent "POST" testMode (some p) post now = (.okFiltered, false) := by
  simp only [filteredTypes, List.mem_cons, List.not_mem_nil, or_false] at hf
  have hfmt : formatTrelloMessage p now = .ok none := by
    rcases hf with rfl | rfl | rfl | rfl | rfl <;>
      · simp only [formatTrelloMessage, hac, hty]
        rfl
  refine ⟨hfmt, ?_⟩
  simp only [handleTrelloEvent, hfmt]
  cases testMode <;> simp [hac, hfmt]

/-- A filtered payload used in the C7 witness. -/
def trelloFilteredSample : TrelloPayload :=
  { action := some { type := some "addChecklistToCard" }
    model := some { url := "https://trello.com/b/abc/board" } }

/-- Witness: C7 applied to a concrete `addChecklistToCard` payload, in
production mode with a failing chat transport. -/
theorem filtered_types_acknowledged_witness :
    formatTrelloMessage trelloFilteredSample "2025-01-01T00:00:00Z" = .ok none ∧
    handleTrelloEvent "POST" false (some trelloFilteredSample)
      (.error "connection refused") "2025-01-01T00:00:00Z" = (.okFiltered, false) :=
  filtered_types_acknowledged trelloFilteredSample _ "addChecklistToCard" false
    (.error "connection refused") "2025-01-01T00:00:00Z" rfl rfl (by decide)

/-- A 64-hex-character digest value standing for one concrete HMAC output. -/
def ghDigest64 : String :=
  "0000000000000000000000000000000000000000000000000000000000000000"

/-- C3 counterexample: a provided signature header that differs from
`sha256=<digest>` and has a different byte length does not yield 403:
`crypto.timingSafeEqual` throws a `RangeError` on buffers of unequal
length, the exception escapes `handleWebhook`, and the endpoint wrapper
answers 500 — though still with no outbound chat call. -/
theorem signature_mismatch_not_always_403 :
    (some "sha256=abc" ≠ some ("sha256=" ++ ghDigest64)) ∧
    handleWebhook
      { method := "POST", signatureHeader := some "sha256=abc",
        eventHeader := some "push", payload := {} }
      "hook-secret" false ghDigest64 (.ok "ok") "2025-01-01T00:00:00Z" =
      (.internalError, false) := by
  constructor
  · decide
  · decide

/-- C3 (amended): with a secret configured and test mode off, a POST
whose signature header is absent/empty, or present with the same byte
length as `sha256=<digest>` but different contents, is answered 403
with no outbound chat call; a non-empty header of a different byte
length makes the constant-time comparison throw, and the endpoint
answers 500, still with no outbound chat call. -/
theorem signature_rejection (req : GhRequest) (secret digestHex now : String)
    (post : Except String DiscordResp)
    (hm : req.method = "POST") (hs : secret ≠ "") :
    (¬ jsTruthy req.signatureHeader = true →
      handleWebhook req secret false digestHex post now = (.forbidden, false)) ∧
    (∀ s, req.signatureHeader = some s → s ≠ "" →
      s.utf8ByteSize = ("sha256=" ++ digestHex).utf8ByteSize →
      s ≠ "sha256=" ++ digestHex →
      handleWebhook req secret false digestHex post now = (.forbidden, false)) ∧
    (∀ s, req.signatureHeader = some s → s ≠ "" →
      s.utf8ByteSize ≠ ("sha256=" ++ digestHex).utf8ByteSize →
      handleWebhook req secret false digestHex post now = (.internalError, false)) := by
  refine ⟨?_, ?_, ?_⟩
  · intro hsig
    have hv : verifyGitHubSignature secret req.signatureHeader digestHex = .ok false := by
      simp only [verifyGitHubSignature, if_neg hs, if_pos hsig]
    simp [handleWebhook, hm, hs, hv]
  · intro s hss hs0 hlen hne
    have ht : jsTruthy (some s) = true := by simp [jsTruthy, hs0]
    have hv : verifyGitHubSignature secret req.signatureHeader digestHex = .ok false := by
      simp only [verifyGitHubSignature, hss, if_neg hs, ht, timingSafeEqual,
        if_pos hlen, Option.getD_some]
      simp [hne]
    simp [handleWebhook, hm, hs, hv]
  · intro s hss hs0 hlen
    have ht : jsTruthy (some s) = true := by simp [jsTruthy, hs0]
    have hv : verifyGitHubSignature secret req.signatureHeader digestHex =
        .error .rangeError := by
      simp only [verifyGitHubSignature, hss, if_neg hs, ht, timingSafeEqual,
        if_neg hlen, Option.getD_some]
      simp
    simp [handleWebhook, hm, hs, hv]

/-- Witness: C3 (amended) applied to a same-length mismatching header. -/
theorem signature_rejection_witness :
    handleWebhook
      { method := "POST",
        signatureHeader := some
          "sha256=1111111111111111111111111111111111111111111111111111111111111111",
        eventHeader := some "push", payload := {} }
      "hook-secret" false ghDigest64 (.ok "ok") "2025-01-01T00:00:00Z" =
      (.forbidden, false) :=
  (signature_rejection _ "hook-secret" ghDigest64 "2025-01-01T00:00:00Z" (.ok "ok")
    rfl (by decide)).2.1
    "sha256=1111111111111111111111111111111111111111111111111111111111111111"
    rfl (by decide) (by decide) (by decide)

/-- C4 counterexample: a POST with no event-type header is not always
answered 400 — with a secret configured, test mode off and no (or a
wrong) signature, the handler checks the signature first and answers
403. -/
theorem missing_event_type_not_always_400 :
    handleWebhook
      { method := "POST", signatureHeader := none,
        eventHeader := none, payload := {} }
      "hook-secret" false ghDigest64 (.ok "ok") "2025-01-01T00:00:00Z" =
      (.forbidden, false) := by
  decide

/-- C4 (amended): a POST lacking the event-type header is answered 400
with no outbound call, provided the request passes or skips the
signature check (no secret configured, test mode on, or a valid
signature); when a secret is configured outside test mode and the
signature is missing or invalid, the 403 rejection takes precedence. -/
theorem missing_event_type_400 (req : GhRequest) (secret digestHex now : String)
    (post : Except String DiscordResp) (testMode : Bool)
    (hm : req.method = "POST") (he : ¬ jsTruthy req.eventHeader = true)
    (hsig : secret ≠ "" → testMode = false →
      req.signatureHeader = some ("sha256=" ++ digestHex)) :
    handleWebhook req secret testMode digestHex post now = (.badRequest, false) := by
  by_cases hsec : secret = ""
  · simp [handleWebhook, hm, hsec, he]
  · cases testMode
    · have hss := hsig hsec rfl
      have hne : ("sha256=" ++ digestHex) ≠ "" := by
        intro hq
        have h2 := congrArg String.length hq
        rw [String.length_append] at h2
        have h7 : ("sha256=" : String).length = 7 := rfl
        have h0 : ("" : String).length = 0 := rfl
        omega
      have ht : jsTruthy (some ("sha256=" ++ digestHex)) = true := by
        simp [jsTruthy, hne]
      have hv : verifyGitHubSignature secret req.signatureHeader digestHex = .ok true := by
        simp [verifyGitHubSignature, hss, hsec, ht, timingSafeEqual]
      simp [handleWebhook, hm, hsec, hv, he]
    · simp [handleWebhook, hm, hsec, he]

/-- Witness: C4 (amended) applied to a POST with no configured secret
and no event-type header. -/
theorem missing_event_type_400_witness :
    handleWebhook
      { method := "POST", signatureHeader := none,
        eventHeader := none, payload := {} }
      "" false ghDigest64 (.ok "ok") "2025-01-01T00:00:00Z" = (.badRequest, false) :=
  missing_event_type_400 _ "" ghDigest64 "2025-01-01T00:00:00Z" (.ok "ok") false
    rfl (by decide) (fun hq _ => absurd rfl hq)

/-- C9: the registration endpoint checks a missing board id first — the
400 JSON error (whose `error` field contains "Missing required
parameter") is produced whatever the token is — and checks the missing
API key after the board-id presence check but before any redirect or
fragment page is issued, again independently of the token. -/
theorem registration_check_order (req : RegRequest) (cfg : RegConfig)
    (gb : Except String TrelloBoardInfo) (pw : Except String String) :
    (¬ jsTruthy req.boardId = true →
      registerBoard req cfg gb pw =
        .badRequestJson "Missing required parameter: boardId"
          "Add ?boardId=YOUR_BOARD_ID to the URL" ∧
      jsIncludes "Missing required parameter: boardId" "Missing required parameter" = true ∧
      ∀ t, registerBoard { req with token := t } cfg gb pw = registerBoard req cfg gb pw) ∧
    (jsTruthy req.boardId = true → cfg.apiKey = "" →
      registerBoard req cfg gb pw =
        .serverErrorJson "Trello API key not configured"
          "The server administrator needs to set up a Trello API key first." ∧
      (∀ u, registerBoard req cfg gb pw ≠ .redirect u) ∧
      (∀ b, registerBoard req cfg gb pw ≠ .fragmentPage b) ∧
      ∀ t, registerBoard { req with token := t } cfg gb pw = registerBoard req cfg gb pw) := by
  constructor
  · intro hb
    refine ⟨by simp [registerBoard, hb], by decide, ?_⟩
    intro t
    simp [registerBoard, hb]
  · intro hb hk
    have heq : registerBoard req cfg gb pw =
        .serverErrorJson "Trello API key not configured"
          "The server administrator needs to set up a Trello API key first." := by
      simp [registerBoard, hb, hk]
    refine ⟨heq, ?_, ?_, ?_⟩
    · intro u hq
      rw [heq] at hq
      exact RegResponse.noConfusion hq
    · intro b hq
      rw [heq] at hq
      exact RegResponse.noConfusion hq
    · intro t
      rw [heq]
      simp [registerBoard, hb, hk]

/-- Witness: C9 applied to a request with no board id (first conjunct)
at a concrete configuration. -/
theorem registration_check_order_witness :
    registerBoard { boardId := none } { apiKey := "k" } (.ok { name := "b" }) (.ok "w") =
      .badRequestJson "Missing required parameter: boardId"
        "Add ?boardId=YOUR_BOARD_ID to the URL" :=
  ((registration_check_order { boardId := none } { apiKey := "k" }
    (.ok { name := "b" }) (.ok "w")).1 (by decide)).1

theorem afterFirst_append (pat s : List Char) (hp : pat ≠ []) :
    afterFirst (pat ++ s) pat = some s := by
  rcases pat with _ | ⟨c, pr⟩
  · exact absurd rfl hp
  · have hpre : (c :: pr).isPrefixOf ((c :: pr) ++ s) = true :=
      List.isPrefixOf_iff_prefix.mpr ⟨s, rfl⟩
    have hstep : afterFirst ((c :: pr) ++ s) (c :: pr) =
        if (c :: pr).isPrefixOf ((c :: pr) ++ s) then
          some (((c :: pr) ++ s).drop (c :: pr).length)
        else afterFirst (pr ++ s) (c :: pr) := rfl
    rw [hstep, if_pos hpre, List.drop_left]

theorem fragmentExtractToken_append (t : String) (ht : t ≠ "")
    (hamp : ∀ c ∈ t.data, c ≠ '&') :
    fragmentExtractToken ("#token=" ++ t) = some t := by
  unfold fragmentExtractToken
  rw [String.data_append, afterFirst_append _ _ (by decide)]
  have htw : t.data.takeWhile (fun c => c ≠ '&') = t.data :=
    List.takeWhile_eq_self_iff.mpr (fun c hc => by simp [hamp c hc])
  have hne : t.data ≠ [] := by
    intro hq
    apply ht
    cases t
    simp_all
  simp only [htw, if_neg hne]

/-- C10: on the OAuth return hop (board id present, no token query
parameter, referer from the board host's authorization page) the
endpoint serves the fragment-promotion page embedding exactly the
supplied board id, and the page's script re-issues a request to the
same endpoint whose URL carries that same board id unchanged together
with the fragment token. -/
theorem fragment_promotion_roundtrip (req : RegRequest) (cfg : RegConfig)
    (gb : Except String TrelloBoardInfo) (pw : Except String String) (b r : String)
    (hb : req.boardId = some b) (hb0 : b ≠ "") (hk : cfg.apiKey ≠ "")
    (ht : ¬ jsTruthy req.token = true)
    (hr : req.referer = some r) (hra : jsIncludes r "trello.com/1/authorize" = true) :
    registerBoard req cfg gb pw = .fragmentPage b ∧
    (∀ tok, tok ≠ "" → (∀ c ∈ tok.data, c ≠ '&') →
      fragmentPageRedirect b ("#token=" ++ tok) =
        some ("/registerTrelloBoard?boardId=" ++ b ++ "&token=" ++ tok)) := by
  constructor
  · have hnb : ¬ (¬ jsTruthy req.boardId = true) := by simp [jsTruthy, hb, hb0]
    simp only [registerBoard, if_neg hnb, hb, Option.getD_some, if_neg hk, if_pos ht,
      hr, hra, if_true]
    have hnb' : ¬ (¬ jsTruthy (some b) = true) := by simp [jsTruthy, hb0]
    rw [if_neg hnb']
  · intro tok h1 h2
    rw [fragmentPageRedirect, fragmentExtractToken_append tok h1 h2]
    rfl

/-- Witness: C10 applied to a concrete return-hop request and the
fragment token `tok123`. -/
theorem fragment_promotion_roundtrip_witness :
    registerBoard
      { boardId := some "b1", token := none,
        referer := some "https://trello.com/1/authorize?expiration=never" }
      { apiKey := "k" } (.ok { name := "b" }) (.ok "w") = .fragmentPage "b1" ∧
    fragmentPageRedirect "b1" ("#token=" ++ "tok123") =
      some ("/registerTrelloBoard?boardId=" ++ "b1" ++ "&token=" ++ "tok123") := by
  have h := fragment_promotion_roundtrip
    { boardId := some "b1", token := none,
      referer := some "https://trello.com/1/authorize?expiration=never" }
    { apiKey := "k" } (.ok { name := "b" }) (.ok "w") "b1"
    "https://trello.com/1/authorize?expiration=never"
    rfl (by decide) (by decide) (by decide) rfl (by decide)
  exact ⟨h.1, h.2 "tok123" (by decide) (by decide)⟩
